import Mathlib

/-!
# Space Dodge — rehab build: verification of the DDA / game-state simulation loop

Shallow embedding of `game.py` (the single source file of the repository).
Numeric state that Python stores in `float` is modelled with `ℚ` (every
constant in the source is a decimal literal, and every arithmetic operation
performed on the modelled fields is exact rational arithmetic in the source's
reals); Python `int` state is modelled with `ℤ`/`ℕ`.

Geometry that lives inside pygame (rotated sprite surfaces, pixel masks,
rects) cannot be re-executed here, so each meteor carries an opaque `payload`
standing for that data, and the per-frame geometric judgements taken on it
(`pygame.mask` overlap with the player, `rect.top > HEIGHT + 50` off-screen
test, the near-miss centre comparisons, and the physics/animation update of
lines 622–651) are supplied by a per-frame `FrameOracle`.  Every theorem
below quantifies over the oracle, so the real geometric functions of any
frame are one instance; the control flow around those judgements — which is
what the claims are about — is translated literally from the source.
The oracle also carries the frame's draws from `random` (meteor payloads,
power-up kind/position/drift, the next power-up interval), i.e. a fixed
random stream.
-/

namespace SpaceDodge

/-- python `clamp` (game.py line 304): `lo if x < lo else hi if x > hi else x`. -/
def clamp (x lo hi : ℚ) : ℚ :=
  if x < lo then lo else if x > hi then hi else x

/-- python `lerp` (game.py line 308): `a + (b - a) * t`. -/
def lerp (a b t : ℚ) : ℚ := a + (b - a) * t

/-- python `int(...)` applied to a float: truncation toward zero
(floor for nonnegative values, negated floor of the negation otherwise). -/
def pyInt (q : ℚ) : ℤ :=
  if 0 ≤ q then ⌊q⌋ else -⌊-q⌋

/-- milliseconds to seconds: `dt_s = dt_ms / 1000.0` (game.py line 473). -/
def dtSec (dt_ms : ℕ) : ℚ := (dt_ms : ℚ) / 1000

-- tunable constants of game.py lines 133, 246-299 (names kept from the source)
def WIDTH : ℤ := 1000
def HEIGHT : ℤ := 600
def PLAYER_WIDTH : ℤ := 150
def PLAYER_HEIGHT : ℤ := 150
def PLAYER_VEL : ℤ := 5
def ANIMATION_MS_IDLE : ℤ := 140
def ANIMATION_MS_MOVE : ℤ := 90
def STAR_VEL_BASE : ℚ := 3
def DIFF_MIN : ℚ := 6/10
def DIFF_MAX : ℚ := 3
def DIFF_START : ℚ := 9/10
def DIFF_UP_PER_SEC : ℚ := 2/100
def DIFF_UP_MOVING_BONUS : ℚ := 15/1000
def DIFF_MULT_DROP_ON_HIT : ℚ := 75/100
def DIFF_ABS_DROP_ON_HIT : ℚ := 10/100
def DIFF_COOLDOWN_AFTER_HIT_SEC : ℚ := 3
def MOVEMENT_ACTIVE_THRESHOLD : ℤ := 160
def MOVEMENT_WINDOW_SEC : ℚ := 5
def LIVES_START : ℤ := 3
def INVULN_MS_AFTER_HIT : ℤ := 1000
def FALL_SPEED_SCALE_START : ℚ := 1
def FALL_SPEED_SCALE_MIN : ℚ := 5/10
def FALL_SPEED_SCALE_HIT_FACTOR : ℚ := 8/10
def FALL_SPEED_RECOVERY_PER_SEC : ℚ := 5/100
def SPAWN_INTERVAL_PENALTY_MAX_MS : ℚ := 800
def SPAWN_INTERVAL_PENALTY_DECAY_PER_SEC : ℚ := 200
def POWERUP_RADIUS : ℚ := 16
def SLOWMO_DURATION_MS : ℤ := 3000
def SHIELD_RESPAWN_COOLDOWN_MS : ℤ := 8000
def POWERUP_VY_BASE : ℚ := 22/10
def SHAKE_MS : ℤ := 350
def BLOCK_SECONDS : ℚ := 60

/-- a meteor (the dict built by `spawn_meteor`, game.py lines 334-339).
`payload` stands for the pygame-owned data (`fx`, `fy`, `vx`, `frame`,
`anim_timer`, `angle`, `surf`, `rect`, `mask`, `passed_player`);
`near_checked` is the flag read and written by the scan itself. -/
structure Meteor where
  payload : ℕ
  near_checked : Bool
deriving DecidableEq

/-- power-up kind (game.py line 344): `"shield"` or `"slowmo"`. -/
inductive PUKind where
  | shield
  | slowmo
deriving DecidableEq

/-- a power-up (the dict built by `spawn_powerup`, game.py line 349). -/
structure PowerUp where
  kind : PUKind
  px : ℚ
  py : ℚ
  r : ℚ
  vx : ℚ
  alive : Bool
deriving DecidableEq

/-- outcome of the collision scan of a frame (game.py lines 669-686):
either a shield consumption or a life-losing hit.  the scan `break`s after
resolving one, so at most one outcome exists per frame — hence `Option`. -/
inductive Outcome where
  | hit
  | shieldConsumed
deriving DecidableEq

/-- the per-frame geometric/random oracle (see module comment).
`updPayload` is the meteor physics/animation/rotation update of game.py
lines 622-651; `offscreen` is `rect.top > HEIGHT + 50` (line 663);
`nearCross` is `rect.centery >= player.centery` (line 654); `nearClose` is
`abs(rect.centerx - player.centerx) <= 30` (line 656); `overlaps` is the
pixel-mask overlap of line 672.  `spawnPayloads` is the stream of payloads
produced by `spawn_meteor`'s random draws; `puShieldDraw` is
`random.random() < SHIELD_DROP_CHANCE`; `puX`/`puVx` are the power-up spawn
draws; `nextPowerupRoll` is `random.randint(6000, 11000)`. -/
structure FrameOracle where
  updPayload : ℕ → ℕ
  offscreen : ℕ → Bool
  nearCross : ℕ → Bool
  nearClose : ℕ → Bool
  overlaps : ℕ → Bool
  spawnPayloads : ℕ → ℕ
  puShieldDraw : Bool
  puX : ℚ
  puVx : ℚ
  nextPowerupRoll : ℤ

/-- the per-frame external inputs: the capped frame delta returned by
`clock.tick(60)` (line 472), the arrow-key snapshot (line 551), and the two
wall-clock readings a frame may take: `tMove` is the `time.time()` of
line 608 (movement-sample window) and `tBlock` the `time.time()` of
lines 748/775 (block bookkeeping). -/
structure FrameInput where
  dt_ms : ℕ
  key_left : Bool
  key_right : Bool
  tMove : ℚ
  tBlock : ℚ

/-- the mutable session state of `run_game` (game.py lines 421-469). -/
structure GameState where
  paused : Bool
  player_frame_idx : ℕ
  player_anim_timer : ℤ
  player_x : ℤ
  score_time : ℚ
  difficulty : ℚ
  lives : ℤ
  invuln_ms_remaining : ℤ
  fall_speed_scale : ℚ
  spawn_interval_penalty_ms : ℚ
  diff_cooldown_timer : ℚ
  star_add_interval_ms : ℤ
  star_spawn_accum : ℤ
  meteors : List Meteor
  powerups : List PowerUp
  powerup_timer_ms : ℤ
  next_powerup_in_ms : ℤ
  shield_active : Bool
  slowmo_ms : ℤ
  shields_collected : ℕ
  shield_cooldown_ms : ℤ
  move_samples : List (ℚ × ℤ)
  shake_ms : ℤ
  game_over : Bool
  meteors_spawned_total : ℕ
  meteors_avoided_total : ℕ
  near_misses_total : ℕ
  block_idx : ℕ
  block_t0 : ℚ
  block_diff_acc : ℚ
  block_speed_acc : ℚ
  block_dur_acc : ℚ
  block_spawned : ℕ
  block_avoided : ℕ
  block_hits : ℕ
  block_near_misses : ℕ
  block_movement_px : ℤ
deriving DecidableEq

/-- session-start state (game.py lines 421-469).  `t0` is the wall clock at
session start (`block_t0 = time.time()`, line 461) and `firstPowerupRoll`
the initial `random.randint(POWERUP_SPAWN_INTERVAL_MIN, POWERUP_SPAWN_INTERVAL_MAX)`. -/
def initState (t0 : ℚ) (firstPowerupRoll : ℤ) : GameState where
  paused := false
  player_frame_idx := 0
  player_anim_timer := 0
  player_x := 200
  score_time := 0
  difficulty := DIFF_START
  lives := LIVES_START
  invuln_ms_remaining := 0
  fall_speed_scale := FALL_SPEED_SCALE_START
  spawn_interval_penalty_ms := 0
  diff_cooldown_timer := 0
  star_add_interval_ms := 1600
  star_spawn_accum := 0
  meteors := []
  powerups := []
  powerup_timer_ms := 0
  next_powerup_in_ms := firstPowerupRoll
  shield_active := false
  slowmo_ms := 0
  shields_collected := 0
  shield_cooldown_ms := 0
  move_samples := []
  shake_ms := 0
  game_over := false
  meteors_spawned_total := 0
  meteors_avoided_total := 0
  near_misses_total := 0
  block_idx := 0
  block_t0 := t0
  block_diff_acc := 0
  block_speed_acc := 0
  block_dur_acc := 0
  block_spawned := 0
  block_avoided := 0
  block_hits := 0
  block_near_misses := 0
  block_movement_px := 0

/-- "timers & decay" (game.py lines 530-549): spawn accumulator, score
time, invulnerability, difficulty cooldown, slow-motion, camera shake and
shield cooldown countdowns (each decremented only while positive), spawn
penalty decay (floored at 0), fall-speed recovery (capped at 1.0). -/
def decayPhase (s : GameState) (dt_ms : ℕ) : GameState :=
  { s with
    star_spawn_accum := s.star_spawn_accum + dt_ms
    score_time := s.score_time + dtSec dt_ms
    invuln_ms_remaining :=
      if 0 < s.invuln_ms_remaining then s.invuln_ms_remaining - dt_ms
      else s.invuln_ms_remaining
    diff_cooldown_timer :=
      if 0 < s.diff_cooldown_timer then s.diff_cooldown_timer - dtSec dt_ms
      else s.diff_cooldown_timer
    slowmo_ms := if 0 < s.slowmo_ms then s.slowmo_ms - dt_ms else s.slowmo_ms
    shake_ms := if 0 < s.shake_ms then s.shake_ms - dt_ms else s.shake_ms
    shield_cooldown_ms :=
      if 0 < s.shield_cooldown_ms then s.shield_cooldown_ms - dt_ms
      else s.shield_cooldown_ms
    spawn_interval_penalty_ms :=
      if 0 < s.spawn_interval_penalty_ms then
        max 0 (s.spawn_interval_penalty_ms -
          SPAWN_INTERVAL_PENALTY_DECAY_PER_SEC * dtSec dt_ms)
      else s.spawn_interval_penalty_ms
    fall_speed_scale :=
      if s.fall_speed_scale < 1 then
        min 1 (s.fall_speed_scale + FALL_SPEED_RECOVERY_PER_SEC * dtSec dt_ms)
      else s.fall_speed_scale }

/-- meteor wave size (game.py line 572):
`2 if difficulty < 1.2 else 3 if difficulty < 2.0 else 4`. -/
def waveSize (difficulty : ℚ) : ℕ :=
  if difficulty < 12/10 then 2 else if difficulty < 2 then 3 else 4

/-- dda-derived target interval and smoothing (game.py lines 553-568):
`base = int(lerp(2000, 400, norm))`; `target = int(base + penalty)`;
`interval = int(interval + (target - interval) * 0.15)`. -/
def smoothedInterval (difficulty penalty : ℚ) (interval : ℤ) : ℤ :=
  let norm := (difficulty - DIFF_MIN) / (DIFF_MAX - DIFF_MIN)
  let base_target := pyInt (lerp 2000 400 norm)
  let target := pyInt ((base_target : ℚ) + penalty)
  pyInt ((interval : ℚ) + ((target : ℚ) - (interval : ℚ)) * (15/100))

/-- spawning (game.py lines 553-590): interval smoothing, the meteor wave
when the accumulator has reached the live interval, and the power-up
spawn on its independent randomized timer (shield kind gated by the
shield cooldown; spawning a shield resets that cooldown). -/
def spawnPhase (s : GameState) (dt_ms : ℕ) (o : FrameOracle) : GameState :=
  let interval := smoothedInterval s.difficulty s.spawn_interval_penalty_ms
    s.star_add_interval_ms
  let doSpawn : Bool := interval ≤ s.star_spawn_accum
  let wave := waveSize s.difficulty
  let newMeteors : List Meteor :=
    (List.range wave).map fun i => ⟨o.spawnPayloads i, false⟩
  let pu_timer := s.powerup_timer_ms + dt_ms
  let doPu : Bool := s.next_powerup_in_ms ≤ pu_timer
  let puKind : PUKind :=
    if s.shield_cooldown_ms ≤ 0 ∧ o.puShieldDraw then .shield else .slowmo
  { s with
    star_add_interval_ms := interval
    meteors := s.meteors ++ (if doSpawn then newMeteors else [])
    meteors_spawned_total := s.meteors_spawned_total + (if doSpawn then wave else 0)
    block_spawned := s.block_spawned + (if doSpawn then wave else 0)
    star_spawn_accum := if doSpawn then 0 else s.star_spawn_accum
    powerups := s.powerups ++
      (if doPu then [⟨puKind, o.puX, -POWERUP_RADIUS - 30, POWERUP_RADIUS, o.puVx, true⟩] else [])
    powerup_timer_ms := if doPu then 0 else pu_timer
    next_powerup_in_ms := if doPu then o.nextPowerupRoll else s.next_powerup_in_ms
    shield_cooldown_ms :=
      if doPu ∧ puKind = .shield then SHIELD_RESPAWN_COOLDOWN_MS
      else s.shield_cooldown_ms }

/-- the player's horizontal position after this frame's movement
(game.py lines 600-604): left then right, each gated by the screen bound. -/
def newPlayerX (x : ℤ) (l r : Bool) : ℤ :=
  let x1 := if l ∧ 0 ≤ x - PLAYER_VEL then x - PLAYER_VEL else x
  if r ∧ x1 + PLAYER_VEL + PLAYER_WIDTH ≤ WIDTH then x1 + PLAYER_VEL else x1

/-- `dx = abs(player.x - prev_x)` (game.py line 605). -/
def moveDx (x : ℤ) (l r : Bool) : ℤ := |newPlayerX x l r - x|

/-- player animation and movement (game.py lines 592-605).  the
movement-sample window (lines 607-615) is handled in `stepFrame` because it
is the one place a wall-clock reading enters the simulation. -/
def playerPhase (s : GameState) (dt_ms : ℕ) (l r : Bool) : GameState :=
  let anim_target := if l ∨ r then ANIMATION_MS_MOVE else ANIMATION_MS_IDLE
  let anim_t := s.player_anim_timer + dt_ms
  { s with
    player_frame_idx :=
      if anim_target ≤ anim_t then (s.player_frame_idx + 1) % 2 else s.player_frame_idx
    player_anim_timer := if anim_target ≤ anim_t then 0 else anim_t
    player_x := newPlayerX s.player_x l r }

/-- the `while move_samples and now_t - move_samples[0][0] > MOVEMENT_WINDOW_SEC:
popleft()` trim of game.py lines 610-611. -/
def trimSamples (now : ℚ) : List (ℚ × ℤ) → List (ℚ × ℤ)
  | [] => []
  | (t, d) :: rest =>
      if MOVEMENT_WINDOW_SEC < now - t then trimSamples now rest else (t, d) :: rest

/-- result of the meteor update-and-collision scan (game.py lines 621-686). -/
structure ScanResult where
  remaining : List Meteor
  avoidedInc : ℕ
  nearInc : ℕ
  outcome : Option Outcome
deriving DecidableEq

/-- a meteor as the scan leaves it when it is kept: payload updated by the
physics/animation step, `near_checked` set once its centre has crossed the
player's centre line (game.py lines 622-657). -/
def keptMeteor (o : FrameOracle) (m : Meteor) : Meteor :=
  ⟨o.updPayload m.payload, m.near_checked || o.nearCross (o.updPayload m.payload)⟩

/-- whether a meteor scores a near miss this frame (game.py lines 654-657):
first crossing of the player's centre line with horizontal distance ≤ 30. -/
def nearMissInc (o : FrameOracle) (m : Meteor) : ℕ :=
  if !m.near_checked && o.nearCross (o.updPayload m.payload)
      && o.nearClose (o.updPayload m.payload) then 1 else 0

/-- the per-frame meteor scan (game.py lines 621-686), iterating the
snapshot `meteors[:]` in order.  each meteor is physics-updated, near-miss
bookkeeping runs, an off-screen meteor is removed and counted avoided
(`continue`), and — only while not invulnerable — a mask overlap resolves
one collision (shield consumption if a shield is held, else a hit) and
`break`s out of the scan, leaving the rest of the list untouched. -/
def scanMeteors (o : FrameOracle) (invuln : ℤ) (shield : Bool) :
    List Meteor → ScanResult
  | [] => ⟨[], 0, 0, none⟩
  | m :: rest =>
    let p := o.updPayload m.payload
    let near := nearMissInc o m
    if o.offscreen p then
      let res := scanMeteors o invuln shield rest
      ⟨res.remaining, res.avoidedInc + 1, res.nearInc + near, res.outcome⟩
    else if invuln ≤ 0 ∧ o.overlaps p then
      ⟨rest, 0, near, some (if shield then .shieldConsumed else .hit)⟩
    else
      let res := scanMeteors o invuln shield rest
      ⟨keptMeteor o m :: res.remaining, res.avoidedInc, res.nearInc + near, res.outcome⟩

/-- the scan of this frame as executed by `run_game`: its inputs are the
post-decay invulnerability countdown, the pre-frame shield flag and the
post-spawn meteor list. -/
def frameScan (s : GameState) (dt_ms : ℕ) (o : FrameOracle) : ScanResult :=
  let sB := spawnPhase (decayPhase s dt_ms) dt_ms o
  scanMeteors o sB.invuln_ms_remaining sB.shield_active sB.meteors

/-- folding the scan's effects back into the state (game.py lines 657-686):
meteor list replaced by the survivors, avoided/near-miss counters bumped,
and on a shield consumption the shield is dropped and a half camera shake
applied (`shake_ms = max(shake_ms, SHAKE_MS // 2)`). -/
def scanApply (s : GameState) (scan : ScanResult) : GameState :=
  { s with
    meteors := scan.remaining
    meteors_avoided_total := s.meteors_avoided_total + scan.avoidedInc
    block_avoided := s.block_avoided + scan.avoidedInc
    near_misses_total := s.near_misses_total + scan.nearInc
    block_near_misses := s.block_near_misses + scan.nearInc
    shield_active :=
      if scan.outcome = some .shieldConsumed then false else s.shield_active
    shake_ms :=
      if scan.outcome = some .shieldConsumed then max s.shake_ms (SHAKE_MS / 2)
      else s.shake_ms }

/-- the circle-vs-rect test `circle_hit_rect` (game.py lines 312-318),
with the player's rect `(x, HEIGHT - PLAYER_HEIGHT - 10, 150, 150)`. -/
def circle_hit_player (cx cy r : ℚ) (playerX : ℤ) : Bool :=
  let left : ℚ := (playerX : ℚ)
  let right : ℚ := (playerX : ℚ) + (PLAYER_WIDTH : ℚ)
  let top : ℚ := ((HEIGHT - PLAYER_HEIGHT - 10 : ℤ) : ℚ)
  let bottom : ℚ := top + (PLAYER_HEIGHT : ℚ)
  let rx := clamp cx left right
  let ry := clamp cy top bottom
  (cx - rx) * (cx - rx) + (cy - ry) * (cy - ry) ≤ r * r

/-- accumulator of the power-up pass. -/
structure PuResult where
  pus : List PowerUp
  shield : Bool
  collected : ℕ
  slowmo : ℤ
deriving DecidableEq

/-- the power-up fall/drift/pickup pass (game.py lines 688-717): integrate,
clamp-and-reflect at the left edge and at the right edge (the source's
right-edge branch contains a dead `if False else` that reduces to the plain
clamp), pick up via the circle-rect test (shield sets the shield flag and
counter, slowmo restarts the slow-motion countdown), and drop power-ups that
left the screen or were consumed. -/
def stepPowerups (vy : ℚ) (playerX : ℤ) (shield : Bool) (collected : ℕ)
    (slowmo : ℤ) : List PowerUp → PuResult
  | [] => ⟨[], shield, collected, slowmo⟩
  | pu :: rest =>
    let ny := pu.py + vy
    let nx0 := pu.px + pu.vx
    let nx := if nx0 < POWERUP_RADIUS then POWERUP_RADIUS
      else if (WIDTH : ℚ) - POWERUP_RADIUS < nx0 then (WIDTH : ℚ) - POWERUP_RADIUS
      else nx0
    let nvx := if nx0 < POWERUP_RADIUS then |pu.vx|
      else if (WIDTH : ℚ) - POWERUP_RADIUS < nx0 then -|pu.vx|
      else pu.vx
    let picked := pu.alive && circle_hit_player nx ny pu.r playerX
    let isShield := picked && (pu.kind = PUKind.shield)
    let shield2 := if isShield then true else shield
    let collected2 := if isShield then collected + 1 else collected
    let slowmo2 := if picked && !(pu.kind = PUKind.shield) then SLOWMO_DURATION_MS
      else slowmo
    let alive2 := if picked then false else pu.alive
    let keep : Bool := !((HEIGHT : ℚ) + 20 < ny - pu.r || !alive2)
    let res := stepPowerups vy playerX shield2 collected2 slowmo2 rest
    ⟨(if keep then [⟨pu.kind, nx, ny, pu.r, nvx, alive2⟩] else []) ++ res.pus,
      res.shield, res.collected, res.slowmo⟩

/-- the power-up phase of a frame (game.py lines 688-717); the fall speed is
`POWERUP_VY_BASE * fall_speed_scale * (0.6 if slowmo_ms > 0 else 1.0)`. -/
def powerupPhase (s : GameState) : GameState :=
  let vy := POWERUP_VY_BASE * s.fall_speed_scale * (if 0 < s.slowmo_ms then 6/10 else 1)
  let res := stepPowerups vy s.player_x s.shield_active s.shields_collected
    s.slowmo_ms s.powerups
  { s with
    powerups := res.pus
    shield_active := res.shield
    shields_collected := res.collected
    slowmo_ms := res.slowmo }

/-- hit resolution (game.py lines 719-758): decrement lives (floored at 0),
bump the block hit counter, drop difficulty multiplicatively-then-absolutely
and clamp, degrade the fall-speed scale (floored at its minimum), add to the
spawn penalty (capped), restart the difficulty cooldown and the
invulnerability window, clear all meteors, reset the spawn accumulator, and
apply a full camera shake; at 0 lives set the game-over flag (the final
block write of lines 748-758 only emits a log record and changes no
simulation state). -/
def resolveHit (s : GameState) : GameState :=
  let lives2 := max 0 (s.lives - 1)
  { s with
    lives := lives2
    block_hits := s.block_hits + 1
    difficulty :=
      clamp (s.difficulty * DIFF_MULT_DROP_ON_HIT - DIFF_ABS_DROP_ON_HIT)
        DIFF_MIN DIFF_MAX
    fall_speed_scale :=
      max FALL_SPEED_SCALE_MIN (s.fall_speed_scale * FALL_SPEED_SCALE_HIT_FACTOR)
    spawn_interval_penalty_ms :=
      min SPAWN_INTERVAL_PENALTY_MAX_MS
        (s.spawn_interval_penalty_ms + SPAWN_INTERVAL_PENALTY_MAX_MS * (6/10))
    diff_cooldown_timer := DIFF_COOLDOWN_AFTER_HIT_SEC
    invuln_ms_remaining := INVULN_MS_AFTER_HIT
    meteors := []
    star_spawn_accum := 0
    shake_ms := max s.shake_ms SHAKE_MS
    game_over := if lives2 ≤ 0 then true else s.game_over }

/-- the steady difficulty ramp (game.py lines 760-765), active only when the
cooldown is nonpositive and the game is not over; the moving bonus is added
when the movement window is active; the result is clamped. -/
def rampPhase (s : GameState) (dt_ms : ℕ) (moving : Bool) : GameState :=
  if s.diff_cooldown_timer ≤ 0 ∧ s.game_over = false then
    { s with
      difficulty :=
        clamp (s.difficulty + DIFF_UP_PER_SEC * dtSec dt_ms +
          (if moving then DIFF_UP_MOVING_BONUS * dtSec dt_ms else 0))
          DIFF_MIN DIFF_MAX }
  else s

/-- block-metric accumulation and the end-of-block reset (game.py lines
767-795), except for `block_t0` (a wall-clock value, threaded in
`stepFrame`).  the block record itself is a log write. -/
def blockCore (s : GameState) (dt_ms : ℕ) (dx : ℤ) : GameState :=
  let dur := s.block_dur_acc + dtSec dt_ms
  if BLOCK_SECONDS ≤ dur then
    { s with
      block_idx := s.block_idx + 1
      block_dur_acc := 0
      block_diff_acc := 0
      block_speed_acc := 0
      block_spawned := 0
      block_avoided := 0
      block_hits := 0
      block_near_misses := 0
      block_movement_px := 0 }
  else
    { s with
      block_dur_acc := dur
      block_diff_acc := s.block_diff_acc + s.difficulty * dtSec dt_ms
      block_speed_acc := s.block_speed_acc + s.fall_speed_scale * dtSec dt_ms
      block_movement_px := s.block_movement_px + dx }

/-- one simulated frame minus the two wall-clock-dependent pieces: the whole
of game.py lines 530-795 with the movement-activity boolean passed in and
`block_t0` left untouched. -/
def stepCore (s : GameState) (dt_ms : ℕ) (l r : Bool) (o : FrameOracle)
    (moving : Bool) : GameState :=
  let scan := frameScan s dt_ms o
  let sE := powerupPhase
    (scanApply (playerPhase (spawnPhase (decayPhase s dt_ms) dt_ms o) dt_ms l r) scan)
  let sF := if scan.outcome = some Outcome.hit then resolveHit sE else sE
  blockCore (rampPhase sF dt_ms moving) dt_ms (moveDx s.player_x l r)

/-- the movement-sample window after this frame (game.py lines 607-611):
append `(time.time(), dx)` and trim samples older than the window. -/
def frameSamples (s : GameState) (inp : FrameInput) : List (ℚ × ℤ) :=
  trimSamples inp.tMove
    (s.move_samples ++ [(inp.tMove, moveDx s.player_x inp.key_left inp.key_right)])

/-- `moving_actively` (game.py lines 614-615): the trailing-window movement
total has reached the activity threshold. -/
def movingActively (s : GameState) (inp : FrameInput) : Bool :=
  MOVEMENT_ACTIVE_THRESHOLD ≤ ((frameSamples s inp).map Prod.snd).sum

/-- one full simulated (non-paused, non-game-over) frame of `run_game`
(game.py lines 530-795). -/
def stepFrame (s : GameState) (inp : FrameInput) (o : FrameOracle) : GameState :=
  let core := stepCore s inp.dt_ms inp.key_left inp.key_right o (movingActively s inp)
  { core with
    move_samples := frameSamples s inp
    block_t0 :=
      if BLOCK_SECONDS ≤ s.block_dur_acc + dtSec inp.dt_ms then inp.tBlock
      else s.block_t0 }

/-- the states a session can reach: the session-start state, a pause toggle
(game.py lines 500-501, ignored once game over), and a simulated frame
(taken only while neither paused nor game over — otherwise the loop only
re-renders, lines 511-528). -/
inductive Reachable : GameState → Prop where
  | init (t0 : ℚ) (roll : ℤ) : Reachable (initState t0 roll)
  | toggle {s : GameState} : Reachable s → s.game_over = false →
      Reachable { s with paused := !s.paused }
  | step {s : GameState} (inp : FrameInput) (o : FrameOracle) : Reachable s →
      s.paused = false → s.game_over = false → Reachable (stepFrame s inp o)

/-- the per-block success rate (game.py line 116):
`sr = (avoided / spawned) if spawned > 0 else ""` — the blank is `none`. -/
def write_block_success_rate (spawned avoided : ℕ) : Option ℚ :=
  if 0 < spawned then some ((avoided : ℚ) / (spawned : ℚ)) else none

/-- the hud success-rate proxy (game.py line 205):
`sr = (avoided / spawned) if spawned > 0 else 0.0`. -/
def hud_success_rate (spawned avoided : ℕ) : ℚ :=
  if 0 < spawned then (avoided : ℚ) / (spawned : ℚ) else 0

/-- a meteor collides this frame: its updated mask overlaps the player's
and it is not removed first by the off-screen test (game.py lines 663-672). -/
def collides (o : FrameOracle) (m : Meteor) : Prop :=
  o.overlaps (o.updPayload m.payload) = true ∧
  o.offscreen (o.updPayload m.payload) = false

/-- the survivors of a collision-free stretch of the scan: each meteor
physics-updated, off-screen ones removed. -/
def keptPrefix (o : FrameOracle) (ms : List Meteor) : List Meteor :=
  (ms.map (keptMeteor o)).filter fun mm => !o.offscreen mm.payload

/-- erase exactly the state components a wall-clock reading can touch in one
frame: the movement-sample window, the difficulty scalar (through the
moving-actively bonus), the block difficulty accumulator (it integrates the
post-ramp difficulty) and the block start timestamp. -/
def stripWall (s : GameState) : GameState :=
  { s with move_samples := [], difficulty := 0, block_diff_acc := 0, block_t0 := 0 }

/-- an oracle whose geometric judgements are all negative and whose random
draws are fixed — one concrete instance of a frame's geometry. -/
def zeroOracle : FrameOracle where
  updPayload := id
  offscreen := fun _ => false
  nearCross := fun _ => false
  nearClose := fun _ => false
  overlaps := fun _ => false
  spawnPayloads := fun _ => 0
  puShieldDraw := false
  puX := 0
  puVx := 0
  nextPowerupRoll := 6000

/-- an oracle under which every meteor overlaps the player. -/
def hitOracle : FrameOracle :=
  { zeroOracle with overlaps := fun _ => true }

/-- a session state one old movement sample away from the activity
threshold, with spawning quiet; used to exhibit wall-clock sensitivity. -/
def detState : GameState :=
  { initState 0 100000 with
    difficulty := 1
    star_add_interval_ms := 100000
    move_samples := [(0, 160)] }

/-- a fresh session state with one live meteor and spawning quiet. -/
def hitState : GameState :=
  { initState 0 100000 with
    star_add_interval_ms := 100000
    meteors := [⟨0, false⟩] }

/-- a fresh session state at difficulty 2.0 (lives are at their start
value 3) — the hit-penalty scenario's precondition. -/
def penaltyState : GameState :=
  { initState 0 6000 with difficulty := 2 }

/-! ## Helper lemmas -/

theorem clamp_bounds (x lo hi : ℚ) (h : lo ≤ hi) :
    lo ≤ clamp x lo hi ∧ clamp x lo hi ≤ hi := by
  unfold clamp
  split_ifs with h1 h2 <;> constructor <;> linarith

theorem blockCore_difficulty (x : GameState) (dt : ℕ) (dx : ℤ) :
    (blockCore x dt dx).difficulty = x.difficulty := by
  simp only [blockCore]
  split <;> rfl

theorem blockCore_meteors (x : GameState) (dt : ℕ) (dx : ℤ) :
    (blockCore x dt dx).meteors = x.meteors := by
  simp only [blockCore]
  split <;> rfl

theorem blockCore_avoided (x : GameState) (dt : ℕ) (dx : ℤ) :
    (blockCore x dt dx).meteors_avoided_total = x.meteors_avoided_total := by
  simp only [blockCore]
  split <;> rfl

theorem blockCore_spawned (x : GameState) (dt : ℕ) (dx : ℤ) :
    (blockCore x dt dx).meteors_spawned_total = x.meteors_spawned_total := by
  simp only [blockCore]
  split <;> rfl

theorem blockCore_accum (x : GameState) (dt : ℕ) (dx : ℤ) :
    (blockCore x dt dx).star_spawn_accum = x.star_spawn_accum := by
  simp only [blockCore]
  split <;> rfl

theorem blockCore_fall (x : GameState) (dt : ℕ) (dx : ℤ) :
    (blockCore x dt dx).fall_speed_scale = x.fall_speed_scale := by
  simp only [blockCore]
  split <;> rfl

theorem rampPhase_difficulty (x : GameState) (dt : ℕ) (m : Bool) :
    (rampPhase x dt m).difficulty =
      if x.diff_cooldown_timer ≤ 0 ∧ x.game_over = false then
        clamp (x.difficulty + DIFF_UP_PER_SEC * dtSec dt +
          (if m then DIFF_UP_MOVING_BONUS * dtSec dt else 0)) DIFF_MIN DIFF_MAX
      else x.difficulty := by
  unfold rampPhase
  split <;> simp_all

theorem rampPhase_meteors (x : GameState) (dt : ℕ) (m : Bool) :
    (rampPhase x dt m).meteors = x.meteors := by
  unfold rampPhase
  split <;> rfl

theorem rampPhase_avoided (x : GameState) (dt : ℕ) (m : Bool) :
    (rampPhase x dt m).meteors_avoided_total = x.meteors_avoided_total := by
  unfold rampPhase
  split <;> rfl

theorem rampPhase_spawned (x : GameState) (dt : ℕ) (m : Bool) :
    (rampPhase x dt m).meteors_spawned_total = x.meteors_spawned_total := by
  unfold rampPhase
  split <;> rfl

theorem rampPhase_accum (x : GameState) (dt : ℕ) (m : Bool) :
    (rampPhase x dt m).star_spawn_accum = x.star_spawn_accum := by
  unfold rampPhase
  split <;> rfl

theorem rampPhase_fall (x : GameState) (dt : ℕ) (m : Bool) :
    (rampPhase x dt m).fall_speed_scale = x.fall_speed_scale := by
  unfold rampPhase
  split <;> rfl

theorem blockCore_cooldown (x : GameState) (dt : ℕ) (dx : ℤ) :
    (blockCore x dt dx).diff_cooldown_timer = x.diff_cooldown_timer := by
  simp only [blockCore]
  split <;> rfl

theorem rampPhase_cooldown (x : GameState) (dt : ℕ) (m : Bool) :
    (rampPhase x dt m).diff_cooldown_timer = x.diff_cooldown_timer := by
  unfold rampPhase
  split <;> rfl

theorem preHit_cooldown (s : GameState) (dt : ℕ) (l r : Bool) (o : FrameOracle) :
    (powerupPhase (scanApply (playerPhase (spawnPhase (decayPhase s dt) dt o)
      dt l r) (frameScan s dt o))).diff_cooldown_timer =
    (decayPhase s dt).diff_cooldown_timer := rfl

/-- if no meteor's updated mask overlaps the player, the scan resolves no
collision. -/
theorem scan_none_of_no_overlap (o : FrameOracle) (invuln : ℤ) (shield : Bool)
    (ms : List Meteor)
    (h : ∀ m ∈ ms, o.overlaps (o.updPayload m.payload) = false) :
    (scanMeteors o invuln shield ms).outcome = none := by
  induction ms with
  | nil => rfl
  | cons m rest ih =>
      have hm := h m (List.mem_cons_self m rest)
      have hrest : ∀ x ∈ rest, o.overlaps (o.updPayload x.payload) = false :=
        fun x hx => h x (List.mem_cons_of_mem m hx)
      simp only [scanMeteors]
      split
      · exact ih hrest
      · split
        · rename_i hcond
          rw [hm] at hcond
          simp at hcond
        · exact ih hrest

/-- the scan resolves the collision of the head meteor when it overlaps and
is not off-screen while the player is vulnerable, and stops there. -/
theorem scan_resolves_head (o : FrameOracle) (invuln : ℤ) (shield : Bool)
    (m : Meteor) (rest : List Meteor) (hinv : invuln ≤ 0)
    (hoff : o.offscreen (o.updPayload m.payload) = false)
    (hov : o.overlaps (o.updPayload m.payload) = true) :
    scanMeteors o invuln shield (m :: rest) =
      ⟨rest, 0, nearMissInc o m, some (if shield then .shieldConsumed else .hit)⟩ := by
  simp only [scanMeteors]
  rw [if_neg (by simp [hoff]), if_pos ⟨hinv, hov⟩]

/-- the scan removes an off-screen meteor, counts it avoided, and goes on. -/
theorem scan_skip_off (o : FrameOracle) (invuln : ℤ) (shield : Bool)
    (m : Meteor) (rest : List Meteor)
    (hoff : o.offscreen (o.updPayload m.payload) = true) :
    scanMeteors o invuln shield (m :: rest) =
      ⟨(scanMeteors o invuln shield rest).remaining,
       (scanMeteors o invuln shield rest).avoidedInc + 1,
       (scanMeteors o invuln shield rest).nearInc + nearMissInc o m,
       (scanMeteors o invuln shield rest).outcome⟩ := by
  simp only [scanMeteors]
  rw [if_pos hoff]

/-- the scan keeps a meteor that is on screen and resolves no collision. -/
theorem scan_keep (o : FrameOracle) (invuln : ℤ) (shield : Bool)
    (m : Meteor) (rest : List Meteor)
    (hcond : ¬(invuln ≤ 0 ∧ o.overlaps (o.updPayload m.payload) = true))
    (hoff : o.offscreen (o.updPayload m.payload) = false) :
    scanMeteors o invuln shield (m :: rest) =
      ⟨keptMeteor o m :: (scanMeteors o invuln shield rest).remaining,
       (scanMeteors o invuln shield rest).avoidedInc,
       (scanMeteors o invuln shield rest).nearInc + nearMissInc o m,
       (scanMeteors o invuln shield rest).outcome⟩ := by
  simp only [scanMeteors]
  rw [if_neg (by simp [hoff]), if_neg hcond]

theorem stepCore_cooldown_no_hit (s : GameState) (dt : ℕ) (l r : Bool)
    (o : FrameOracle) (m : Bool)
    (h : (frameScan s dt o).outcome ≠ some Outcome.hit) :
    (stepCore s dt l r o m).diff_cooldown_timer =
      (decayPhase s dt).diff_cooldown_timer := by
  simp only [stepCore]
  rw [blockCore_cooldown, rampPhase_cooldown, if_neg h, preHit_cooldown]

theorem stepCore_difficulty_no_hit (s : GameState) (dt : ℕ) (l r : Bool)
    (o : FrameOracle) (m : Bool)
    (h : (frameScan s dt o).outcome ≠ some Outcome.hit) :
    (stepCore s dt l r o m).difficulty =
      if (decayPhase s dt).diff_cooldown_timer ≤ 0 ∧ s.game_over = false then
        clamp (s.difficulty + DIFF_UP_PER_SEC * dtSec dt +
          (if m then DIFF_UP_MOVING_BONUS * dtSec dt else 0)) DIFF_MIN DIFF_MAX
      else s.difficulty := by
  simp only [stepCore]
  rw [blockCore_difficulty, rampPhase_difficulty, if_neg h]
  rfl

theorem stepCore_difficulty_cases (s : GameState) (dt : ℕ) (l r : Bool)
    (o : FrameOracle) (m : Bool) :
    (stepCore s dt l r o m).difficulty = s.difficulty ∨
    ∃ x, (stepCore s dt l r o m).difficulty = clamp x DIFF_MIN DIFF_MAX := by
  simp only [stepCore]
  rw [blockCore_difficulty, rampPhase_difficulty]
  split
  · exact Or.inr ⟨_, rfl⟩
  · split
    · exact Or.inr ⟨_, rfl⟩
    · exact Or.inl rfl

theorem decayPhase_fall (s : GameState) (dt : ℕ) :
    (decayPhase s dt).fall_speed_scale =
      if s.fall_speed_scale < 1 then
        min 1 (s.fall_speed_scale + FALL_SPEED_RECOVERY_PER_SEC * dtSec dt)
      else s.fall_speed_scale := rfl

theorem preHit_fall (s : GameState) (dt : ℕ) (l r : Bool) (o : FrameOracle) :
    (powerupPhase (scanApply (playerPhase (spawnPhase (decayPhase s dt) dt o)
      dt l r) (frameScan s dt o))).fall_speed_scale =
    (decayPhase s dt).fall_speed_scale := rfl

theorem resolveHit_fall (x : GameState) :
    (resolveHit x).fall_speed_scale =
      max FALL_SPEED_SCALE_MIN (x.fall_speed_scale * FALL_SPEED_SCALE_HIT_FACTOR) := rfl

theorem stepCore_fall_bounds (s : GameState) (dt : ℕ) (l r : Bool)
    (o : FrameOracle) (m : Bool)
    (h1 : FALL_SPEED_SCALE_MIN ≤ s.fall_speed_scale)
    (h2 : s.fall_speed_scale ≤ 1) :
    FALL_SPEED_SCALE_MIN ≤ (stepCore s dt l r o m).fall_speed_scale ∧
    (stepCore s dt l r o m).fall_speed_scale ≤ 1 := by
  have hdt : (0 : ℚ) ≤ dtSec dt := by
    unfold dtSec; positivity
  have hA : FALL_SPEED_SCALE_MIN ≤ (decayPhase s dt).fall_speed_scale ∧
      (decayPhase s dt).fall_speed_scale ≤ 1 := by
    rw [decayPhase_fall]
    unfold FALL_SPEED_SCALE_MIN FALL_SPEED_RECOVERY_PER_SEC at *
    split_ifs with hf
    · refine ⟨le_min (by norm_num) (by nlinarith), min_le_left _ _⟩
    · exact ⟨h1, h2⟩
  simp only [stepCore]
  rw [blockCore_fall, rampPhase_fall]
  split
  · -- a hit was resolved: fall_speed_scale degraded then floored
    rw [resolveHit_fall, preHit_fall]
    unfold FALL_SPEED_SCALE_MIN FALL_SPEED_SCALE_HIT_FACTOR at *
    exact ⟨le_max_left _ _, max_le (by norm_num) (by nlinarith [hA.1, hA.2])⟩
  · rw [preHit_fall]
    exact hA

theorem keptPrefix_nil (o : FrameOracle) : keptPrefix o [] = [] := rfl

theorem keptPrefix_cons_off (o : FrameOracle) (m : Meteor) (pre : List Meteor)
    (hoff : o.offscreen (o.updPayload m.payload) = true) :
    keptPrefix o (m :: pre) = keptPrefix o pre := by
  simp only [keptPrefix, List.map_cons, List.filter_cons]
  rw [show (keptMeteor o m).payload = o.updPayload m.payload from rfl, hoff]
  rfl

theorem keptPrefix_cons_kept (o : FrameOracle) (m : Meteor) (pre : List Meteor)
    (hoff : o.offscreen (o.updPayload m.payload) = false) :
    keptPrefix o (m :: pre) = keptMeteor o m :: keptPrefix o pre := by
  simp only [keptPrefix, List.map_cons, List.filter_cons]
  rw [show (keptMeteor o m).payload = o.updPayload m.payload from rfl, hoff]
  rfl

theorem scanMeteors_length (o : FrameOracle) (invuln : ℤ) (shield : Bool)
    (ms : List Meteor) :
    (scanMeteors o invuln shield ms).remaining.length +
      (scanMeteors o invuln shield ms).avoidedInc ≤ ms.length := by
  induction ms with
  | nil => simp [scanMeteors]
  | cons m rest ih =>
      simp only [scanMeteors]
      split
      · dsimp only
        simp only [List.length_cons]
        omega
      · split
        · dsimp only
          simp only [List.length_cons]
          omega
        · dsimp only
          simp only [List.length_cons]
          omega

theorem frameScan_length (s : GameState) (dt : ℕ) (o : FrameOracle) :
    (frameScan s dt o).remaining.length + (frameScan s dt o).avoidedInc ≤
      (spawnPhase (decayPhase s dt) dt o).meteors.length :=
  scanMeteors_length o _ _ _

theorem spawnPhase_counters (s : GameState) (dt : ℕ) (o : FrameOracle) :
    ∃ w, (spawnPhase s dt o).meteors.length = s.meteors.length + w ∧
      (spawnPhase s dt o).meteors_spawned_total = s.meteors_spawned_total + w ∧
      (spawnPhase s dt o).meteors_avoided_total = s.meteors_avoided_total := by
  by_cases hds : smoothedInterval s.difficulty s.spawn_interval_penalty_ms
      s.star_add_interval_ms ≤ s.star_spawn_accum
  · refine ⟨waveSize s.difficulty, ?_, ?_, rfl⟩ <;> simp [spawnPhase, hds]
  · refine ⟨0, ?_, ?_, rfl⟩ <;> simp [spawnPhase, hds]

/-! ## C1 — difficulty bounds invariant -/

/-- C1: for every reachable state of a session — over every sequence of
frames, hit events and pause toggles — the difficulty scalar satisfies
`DIFF_MIN ≤ difficulty ≤ DIFF_MAX`: it starts at `DIFF_START` and both
mutation sites (the hit drop of game.py lines 727-728 and the per-frame
ramp of lines 761-765) clamp their result into the band, so every
observation point sees an in-band value. -/
theorem difficulty_bounds_invariant (s : GameState) (h : Reachable s) :
    DIFF_MIN ≤ s.difficulty ∧ s.difficulty ≤ DIFF_MAX := by
  induction h with
  | init t0 roll =>
      constructor <;> norm_num [initState, DIFF_START, DIFF_MIN, DIFF_MAX]
  | toggle _ _ ih => exact ih
  | @step s inp o _ _ _ ih =>
      have hq : (stepFrame s inp o).difficulty =
          (stepCore s inp.dt_ms inp.key_left inp.key_right o
            (movingActively s inp)).difficulty := rfl
      rcases stepCore_difficulty_cases s inp.dt_ms inp.key_left inp.key_right o
          (movingActively s inp) with hc | ⟨x, hc⟩
      · rw [hq, hc]; exact ih
      · rw [hq, hc]
        exact clamp_bounds x DIFF_MIN DIFF_MAX (by norm_num [DIFF_MIN, DIFF_MAX])

theorem difficulty_bounds_invariant_witness :
    DIFF_MIN ≤ (stepFrame (initState 0 6000) ⟨16, false, false, 0, 0⟩ zeroOracle).difficulty ∧
    (stepFrame (initState 0 6000) ⟨16, false, false, 0, 0⟩ zeroOracle).difficulty ≤ DIFF_MAX :=
  difficulty_bounds_invariant _
    (Reachable.step ⟨16, false, false, 0, 0⟩ zeroOracle (Reachable.init 0 6000) rfl rfl)

/-! ## C6 — fall-speed scale bounds -/

/-- C6: for every reachable state,
`FALL_SPEED_SCALE_MIN ≤ fall_speed_scale ≤ 1.0`: it starts at 1.0, the hit
drop multiplies by `FALL_SPEED_SCALE_HIT_FACTOR` but is floored at the
minimum (game.py lines 729-730), and the per-frame linear recovery is capped
at 1.0 (lines 547-549). -/
theorem fall_speed_scale_bounds (s : GameState) (h : Reachable s) :
    FALL_SPEED_SCALE_MIN ≤ s.fall_speed_scale ∧ s.fall_speed_scale ≤ 1 := by
  induction h with
  | init t0 roll =>
      constructor <;>
        norm_num [initState, FALL_SPEED_SCALE_START, FALL_SPEED_SCALE_MIN]
  | toggle _ _ ih => exact ih
  | @step s inp o _ _ _ ih =>
      have hq : (stepFrame s inp o).fall_speed_scale =
          (stepCore s inp.dt_ms inp.key_left inp.key_right o
            (movingActively s inp)).fall_speed_scale := rfl
      rw [hq]
      exact stepCore_fall_bounds s inp.dt_ms inp.key_left inp.key_right o
        (movingActively s inp) ih.1 ih.2

theorem fall_speed_scale_bounds_witness :
    FALL_SPEED_SCALE_MIN ≤
      (stepFrame (initState 0 6000) ⟨16, false, false, 0, 0⟩ zeroOracle).fall_speed_scale ∧
    (stepFrame (initState 0 6000) ⟨16, false, false, 0, 0⟩ zeroOracle).fall_speed_scale ≤ 1 :=
  fall_speed_scale_bounds _
    (Reachable.step ⟨16, false, false, 0, 0⟩ zeroOracle (Reachable.init 0 6000) rfl rfl)

/-! ## C4 — hit-penalty scenario -/

/-- C4: if a hit is resolved in a frame where `difficulty = 2.0` and
`lives = 3`, then after the hit-resolution step (game.py lines 720-740)
`lives = 2`, `difficulty = clamp(2.0*0.75 - 0.10, DIFF_MIN, DIFF_MAX) = 1.4`,
the difficulty cooldown is `3.0` seconds, the invulnerability countdown is
`1000` ms, and the meteor collection is empty. -/
theorem hit_penalty_scenario (s : GameState)
    (h1 : s.difficulty = 2) (h2 : s.lives = 3) :
    (resolveHit s).lives = 2 ∧
    (resolveHit s).difficulty = 7/5 ∧
    (resolveHit s).diff_cooldown_timer = 3 ∧
    (resolveHit s).invuln_ms_remaining = 1000 ∧
    (resolveHit s).meteors = [] := by
  unfold resolveHit
  refine ⟨?_, ?_, rfl, rfl, rfl⟩
  · simp [h2]
  · simp only [h1]
    norm_num [clamp, DIFF_MULT_DROP_ON_HIT, DIFF_ABS_DROP_ON_HIT, DIFF_MIN, DIFF_MAX]

theorem hit_penalty_scenario_witness :
    penaltyState.difficulty = 2 ∧ penaltyState.lives = 3 ∧
    ((resolveHit penaltyState).lives = 2 ∧
     (resolveHit penaltyState).difficulty = 7/5 ∧
     (resolveHit penaltyState).diff_cooldown_timer = 3 ∧
     (resolveHit penaltyState).invuln_ms_remaining = 1000 ∧
     (resolveHit penaltyState).meteors = []) :=
  ⟨rfl, rfl, hit_penalty_scenario penaltyState rfl rfl⟩

/-! ## C5 — cooldown decrement (corrected) -/

/-- C5, counterexample: the claim says the difficulty cooldown timer is
decremented by the frame delta on every simulated frame regardless of its
current value.  It is not: game.py line 535 guards the decrement with
`if diff_cooldown_timer > 0`.  On a fresh session (cooldown 0) a simulated
16 ms frame with no hit leaves the cooldown at 0 instead of `0 - 0.016`. -/
theorem cooldown_not_decremented_at_zero :
    (stepFrame (initState 0 6000) ⟨16, false, false, 0, 0⟩ zeroOracle).diff_cooldown_timer ≠
    (initState 0 6000).diff_cooldown_timer - dtSec 16 := by
  have hno : (frameScan (initState 0 6000) 16 zeroOracle).outcome ≠ some Outcome.hit := by
    simp only [frameScan]
    rw [scan_none_of_no_overlap zeroOracle _ _ _ (fun m _ => rfl)]
    simp
  have hq : (stepFrame (initState 0 6000) ⟨16, false, false, 0, 0⟩
      zeroOracle).diff_cooldown_timer =
      (stepCore (initState 0 6000) 16 false false zeroOracle
        (movingActively (initState 0 6000) ⟨16, false, false, 0, 0⟩)).diff_cooldown_timer := rfl
  rw [hq, stepCore_cooldown_no_hit _ _ _ _ _ _ hno]
  show (if (0 : ℚ) < (0 : ℚ) then (0 : ℚ) - dtSec 16 else 0) ≠ (0 : ℚ) - dtSec 16
  norm_num [dtSec]

/-- C5 as amended: the cooldown is decremented by the frame delta only when
it is currently positive (game.py lines 535-536); when it is positive the
full delta is subtracted with no clamping, so the timer can end a frame
negative; and `cooldown ≤ 0` (together with the game not being over) is
exactly the condition under which the per-frame difficulty ramp is applied
(lines 761-765). -/
theorem cooldown_decay_characterisation (s : GameState) (dt : ℕ) (m : Bool) :
    ((decayPhase s dt).diff_cooldown_timer =
      if 0 < s.diff_cooldown_timer then s.diff_cooldown_timer - dtSec dt
      else s.diff_cooldown_timer) ∧
    (decayPhase { s with diff_cooldown_timer := 1/100 } 1000).diff_cooldown_timer < 0 ∧
    (rampPhase s dt m).difficulty =
      (if s.diff_cooldown_timer ≤ 0 ∧ s.game_over = false then
        clamp (s.difficulty + DIFF_UP_PER_SEC * dtSec dt +
          (if m then DIFF_UP_MOVING_BONUS * dtSec dt else 0)) DIFF_MIN DIFF_MAX
      else s.difficulty) := by
  refine ⟨rfl, ?_, rampPhase_difficulty s dt m⟩
  show (if (0 : ℚ) < 1/100 then (1/100 : ℚ) - dtSec 1000 else (1/100 : ℚ)) < 0
  norm_num [dtSec]

/-! ## C9 — success-rate well-definedness -/

/-- C9: the success-rate metric divides only under the guard
`spawned > 0` (game.py line 116 for the block csv, line 205 for the hud);
with `spawned = 0` the block csv emits a blank (modelled `none`) and the hud
falls back to `0.0` without dividing, so no division by zero occurs; when it
is computed, the value is the exact ratio `avoided / spawned`. -/
theorem success_rate_guarded (spawned avoided : ℕ) (h : 0 < spawned) :
    write_block_success_rate spawned avoided = some ((avoided : ℚ) / (spawned : ℚ)) ∧
    write_block_success_rate 0 avoided = none ∧
    hud_success_rate 0 avoided = 0 ∧
    ((avoided : ℚ) / (spawned : ℚ)) * (spawned : ℚ) = (avoided : ℚ) := by
  refine ⟨if_pos h, if_neg (by norm_num), if_neg (by norm_num), ?_⟩
  rw [div_mul_cancel₀]
  exact Nat.cast_ne_zero.mpr h.ne'

theorem success_rate_guarded_witness :
    0 < 2 ∧
    (write_block_success_rate 2 1 = some (((1 : ℕ) : ℚ) / ((2 : ℕ) : ℚ)) ∧
     write_block_success_rate 0 1 = none ∧
     hud_success_rate 0 1 = 0 ∧
     (((1 : ℕ) : ℚ) / ((2 : ℕ) : ℚ)) * ((2 : ℕ) : ℚ) = ((1 : ℕ) : ℚ)) :=
  ⟨by norm_num, success_rate_guarded 2 1 (by norm_num)⟩

/-! ## C10 — frame effect of hit resolution -/

/-- C10: resolving a hit (game.py lines 719-758) changes only lives,
difficulty, the fall-speed scale, the spawn penalty, the difficulty
cooldown, the invulnerability countdown, the meteor collection, the spawn
accumulator, the shake timer, the block hit counter and (possibly) the
game-over flag; every other component — in particular the power-up list,
the shield flag, the slow-motion countdown, the spawned/avoided/near-miss
counters and the player's position — is left unchanged. -/
theorem resolve_hit_frame_effect (s : GameState) :
    (resolveHit s).paused = s.paused ∧
    (resolveHit s).player_frame_idx = s.player_frame_idx ∧
    (resolveHit s).player_anim_timer = s.player_anim_timer ∧
    (resolveHit s).player_x = s.player_x ∧
    (resolveHit s).score_time = s.score_time ∧
    (resolveHit s).star_add_interval_ms = s.star_add_interval_ms ∧
    (resolveHit s).powerups = s.powerups ∧
    (resolveHit s).powerup_timer_ms = s.powerup_timer_ms ∧
    (resolveHit s).next_powerup_in_ms = s.next_powerup_in_ms ∧
    (resolveHit s).shield_active = s.shield_active ∧
    (resolveHit s).slowmo_ms = s.slowmo_ms ∧
    (resolveHit s).shields_collected = s.shields_collected ∧
    (resolveHit s).shield_cooldown_ms = s.shield_cooldown_ms ∧
    (resolveHit s).move_samples = s.move_samples ∧
    (resolveHit s).meteors_spawned_total = s.meteors_spawned_total ∧
    (resolveHit s).meteors_avoided_total = s.meteors_avoided_total ∧
    (resolveHit s).near_misses_total = s.near_misses_total ∧
    (resolveHit s).block_idx = s.block_idx ∧
    (resolveHit s).block_t0 = s.block_t0 ∧
    (resolveHit s).block_diff_acc = s.block_diff_acc ∧
    (resolveHit s).block_speed_acc = s.block_speed_acc ∧
    (resolveHit s).block_dur_acc = s.block_dur_acc ∧
    (resolveHit s).block_spawned = s.block_spawned ∧
    (resolveHit s).block_avoided = s.block_avoided ∧
    (resolveHit s).block_near_misses = s.block_near_misses ∧
    (resolveHit s).block_movement_px = s.block_movement_px :=
  ⟨rfl, rfl, rfl, rfl, rfl, rfl, rfl, rfl, rfl, rfl, rfl, rfl, rfl, rfl, rfl,
   rfl, rfl, rfl, rfl, rfl, rfl, rfl, rfl, rfl, rfl, rfl⟩

/-! ## C2 — single collision per frame -/

/-- C2: in any single frame in which at least one meteor overlaps the
non-invulnerable player's mask (without first being removed off-screen),
exactly one collision outcome is produced — `some` of a hit or of a shield
consumption, the scan's `Option Outcome` holding at most one resolution by
construction of the `break` at game.py line 685 — it is resolved on the
first such meteor in iteration order, and the meteors after it in the list
are left exactly as they were, unprocessed, for that frame. -/
theorem single_collision_per_frame (o : FrameOracle) (invuln : ℤ) (shield : Bool)
    (ms : List Meteor) (hinv : invuln ≤ 0) (hex : ∃ m ∈ ms, collides o m) :
    ∃ pre m post, ms = pre ++ m :: post ∧ (∀ x ∈ pre, ¬ collides o x) ∧
      collides o m ∧
      (scanMeteors o invuln shield ms).outcome =
        some (if shield then Outcome.shieldConsumed else Outcome.hit) ∧
      (scanMeteors o invuln shield ms).remaining = keptPrefix o pre ++ post := by
  induction ms with
  | nil => simp at hex
  | cons m rest ih =>
      by_cases hc : collides o m
      · refine ⟨[], m, rest, rfl, by simp, hc, ?_, ?_⟩
        · rw [scan_resolves_head o invuln shield m rest hinv hc.2 hc.1]
        · rw [scan_resolves_head o invuln shield m rest hinv hc.2 hc.1,
            keptPrefix_nil]
          rfl
      · obtain ⟨x, hx, hcx⟩ := hex
        have hxrest : x ∈ rest := by
          rcases List.mem_cons.mp hx with h1 | h1
          · exact absurd (h1 ▸ hcx) hc
          · exact h1
        obtain ⟨pre, mm, post, heq, hpre, hcoll, hout, hrem⟩ := ih ⟨x, hxrest, hcx⟩
        have hprem : ∀ y ∈ m :: pre, ¬ collides o y := by
          intro y hy
          rcases List.mem_cons.mp hy with h1 | h1
          · exact h1 ▸ hc
          · exact hpre y h1
        by_cases hoff : o.offscreen (o.updPayload m.payload) = true
        · refine ⟨m :: pre, mm, post, by rw [heq, List.cons_append], hprem, hcoll, ?_, ?_⟩
          · rw [scan_skip_off o invuln shield m rest hoff]
            exact hout
          · rw [scan_skip_off o invuln shield m rest hoff]
            rw [keptPrefix_cons_off o m pre hoff]
            exact hrem
        · have hoff2 : o.offscreen (o.updPayload m.payload) = false :=
            Bool.eq_false_iff.mpr hoff
          have hov : ¬ (invuln ≤ 0 ∧ o.overlaps (o.updPayload m.payload) = true) := by
            rintro ⟨-, h2⟩
            exact hc ⟨h2, hoff2⟩
          refine ⟨m :: pre, mm, post, by rw [heq, List.cons_append], hprem, hcoll, ?_, ?_⟩
          · rw [scan_keep o invuln shield m rest hov hoff2]
            exact hout
          · rw [scan_keep o invuln shield m rest hov hoff2]
            show keptMeteor o m :: (scanMeteors o invuln shield rest).remaining =
              keptPrefix o (m :: pre) ++ post
            rw [keptPrefix_cons_kept o m pre hoff2, List.cons_append, hrem]

theorem single_collision_per_frame_witness :
    ∃ pre m post,
      ([⟨0, false⟩, ⟨1, false⟩] : List Meteor) = pre ++ m :: post ∧
      (∀ x ∈ pre, ¬ collides hitOracle x) ∧
      collides hitOracle m ∧
      (scanMeteors hitOracle 0 false [⟨0, false⟩, ⟨1, false⟩]).outcome =
        some (if false then Outcome.shieldConsumed else Outcome.hit) ∧
      (scanMeteors hitOracle 0 false [⟨0, false⟩, ⟨1, false⟩]).remaining =
        keptPrefix hitOracle pre ++ post :=
  single_collision_per_frame hitOracle 0 false _ le_rfl
    ⟨⟨0, false⟩, List.mem_cons_self _ _, rfl, rfl⟩

/-! ## C3 — a hit wipes the board -/

/-- C3: for every frame in which a hit is resolved, immediately after the
hit-resolution step (and indeed at the end of the frame, since nothing
between game.py lines 740 and 795 touches them) the meteor collection is
empty and the meteor spawn accumulator equals 0. -/
theorem hit_wipes_board (s : GameState) (inp : FrameInput) (o : FrameOracle)
    (h : (frameScan s inp.dt_ms o).outcome = some Outcome.hit) :
    (stepFrame s inp o).meteors = [] ∧ (stepFrame s inp o).star_spawn_accum = 0 := by
  constructor
  · show (stepCore s inp.dt_ms inp.key_left inp.key_right o
      (movingActively s inp)).meteors = []
    simp only [stepCore]
    rw [blockCore_meteors, rampPhase_meteors, if_pos h]
    rfl
  · show (stepCore s inp.dt_ms inp.key_left inp.key_right o
      (movingActively s inp)).star_spawn_accum = 0
    simp only [stepCore]
    rw [blockCore_accum, rampPhase_accum, if_pos h]
    rfl

theorem hit_wipes_board_witness :
    (stepFrame hitState ⟨16, false, false, 0, 0⟩ hitOracle).meteors = [] ∧
    (stepFrame hitState ⟨16, false, false, 0, 0⟩ hitOracle).star_spawn_accum = 0 :=
  hit_wipes_board hitState ⟨16, false, false, 0, 0⟩ hitOracle (by
    obtain ⟨tl, htl⟩ : ∃ tl,
        (spawnPhase (decayPhase hitState 16) 16 hitOracle).meteors =
          (⟨0, false⟩ : Meteor) :: tl := ⟨_, rfl⟩
    simp only [frameScan]
    rw [htl, scan_resolves_head hitOracle _ _ _ _
      (show (spawnPhase (decayPhase hitState 16) 16 hitOracle).invuln_ms_remaining ≤ 0
        from le_of_eq rfl) rfl rfl]
    rfl)

/-! ## C7 — meteor counters never double-count -/

/-- C7: at all times, `meteors_avoided_total` plus the number of meteors
currently alive is at most `meteors_spawned_total`: every spawn increments
the spawned counter once per meteor, a meteor is counted avoided at most
once (at the moment it is removed off-screen), and collision or hit-clear
removals discard meteors without counting them avoided, so no meteor is
ever both avoided and still active. -/
theorem meteor_counters_consistent (s : GameState) (h : Reachable s) :
    s.meteors_avoided_total + s.meteors.length ≤ s.meteors_spawned_total := by
  induction h with
  | init t0 roll => simp [initState]
  | toggle _ _ ih => exact ih
  | @step s inp o _ _ _ ih =>
      show (stepCore s inp.dt_ms inp.key_left inp.key_right o
          (movingActively s inp)).meteors_avoided_total +
        (stepCore s inp.dt_ms inp.key_left inp.key_right o
          (movingActively s inp)).meteors.length ≤
        (stepCore s inp.dt_ms inp.key_left inp.key_right o
          (movingActively s inp)).meteors_spawned_total
      obtain ⟨w, hw1, hw2, hw3⟩ := spawnPhase_counters (decayPhase s inp.dt_ms) inp.dt_ms o
      have hlen := frameScan_length s inp.dt_ms o
      have hmet : (decayPhase s inp.dt_ms).meteors = s.meteors := rfl
      have hav : (decayPhase s inp.dt_ms).meteors_avoided_total =
        s.meteors_avoided_total := rfl
      have hsp : (decayPhase s inp.dt_ms).meteors_spawned_total =
        s.meteors_spawned_total := rfl
      rw [hmet] at hw1
      rw [hsp] at hw2
      rw [hav] at hw3
      rw [hw1] at hlen
      simp only [stepCore]
      rw [blockCore_meteors, blockCore_avoided, blockCore_spawned,
        rampPhase_meteors, rampPhase_avoided, rampPhase_spawned]
      split
      · -- a hit was resolved: the board is cleared, nothing newly counted
        show (spawnPhase (decayPhase s inp.dt_ms) inp.dt_ms o).meteors_avoided_total +
            (frameScan s inp.dt_ms o).avoidedInc + ([] : List Meteor).length ≤
          (spawnPhase (decayPhase s inp.dt_ms) inp.dt_ms o).meteors_spawned_total
        rw [hw2, hw3]
        simp only [List.length_nil]
        omega
      · show (spawnPhase (decayPhase s inp.dt_ms) inp.dt_ms o).meteors_avoided_total +
            (frameScan s inp.dt_ms o).avoidedInc +
            (frameScan s inp.dt_ms o).remaining.length ≤
          (spawnPhase (decayPhase s inp.dt_ms) inp.dt_ms o).meteors_spawned_total
        rw [hw2, hw3]
        omega

theorem meteor_counters_consistent_witness :
    (stepFrame (initState 0 6000) ⟨16, false, false, 0, 0⟩ zeroOracle).meteors_avoided_total +
      (stepFrame (initState 0 6000) ⟨16, false, false, 0, 0⟩ zeroOracle).meteors.length ≤
    (stepFrame (initState 0 6000) ⟨16, false, false, 0, 0⟩ zeroOracle).meteors_spawned_total :=
  meteor_counters_consistent _
    (Reachable.step ⟨16, false, false, 0, 0⟩ zeroOracle (Reachable.init 0 6000) rfl rfl)

/-! ## C8 — wall-clock (in)dependence of the simulation step -/

theorem stripWall_blockCore_ramp (x : GameState) (dt : ℕ) (dx : ℤ) (m1 m2 : Bool) :
    stripWall (blockCore (rampPhase x dt m1) dt dx) =
    stripWall (blockCore (rampPhase x dt m2) dt dx) := by
  unfold rampPhase
  by_cases hc : x.diff_cooldown_timer ≤ 0 ∧ x.game_over = false
  · rw [if_pos hc, if_pos hc]
    simp only [blockCore, stripWall]
    split_ifs <;> rfl
  · rw [if_neg hc, if_neg hc]

theorem stepCore_stripWall (s : GameState) (dt : ℕ) (l r : Bool)
    (o : FrameOracle) (m1 m2 : Bool) :
    stripWall (stepCore s dt l r o m1) = stripWall (stepCore s dt l r o m2) := by
  simp only [stepCore]
  exact stripWall_blockCore_ramp _ dt _ m1 m2

/-- C8, counterexample: the claim says no wall-clock reading influences the
evolution of difficulty.  It does: the movement-activity window (game.py
lines 607-615) is trimmed by `time.time()` timestamps, and its total decides
the moving-actively difficulty bonus.  From the same state (one 160 px
sample taken at wall-clock 0, difficulty 1, cooldown 0), the same 1000 ms
frame delta, the same (idle) input and the same random stream, a frame at
wall-clock reading 4 keeps the sample (difficulty ramps to 1.035) while at
reading 6 the sample has aged out (difficulty ramps to 1.02). -/
theorem wallclock_changes_difficulty :
    (stepFrame detState ⟨1000, false, false, 4, 0⟩ zeroOracle).difficulty ≠
    (stepFrame detState ⟨1000, false, false, 6, 0⟩ zeroOracle).difficulty := by
  have hno : (frameScan detState 1000 zeroOracle).outcome ≠ some Outcome.hit := by
    simp only [frameScan]
    rw [scan_none_of_no_overlap zeroOracle _ _ _ (fun m _ => rfl)]
    simp
  have hcool : ((decayPhase detState 1000).diff_cooldown_timer ≤ 0 ∧
      detState.game_over = false) :=
    ⟨le_of_eq (show (decayPhase detState 1000).diff_cooldown_timer = 0 from rfl), rfl⟩
  have hmA : movingActively detState ⟨1000, false, false, 4, 0⟩ = true := by
    norm_num [movingActively, frameSamples, trimSamples, detState, initState,
      moveDx, newPlayerX, MOVEMENT_WINDOW_SEC, MOVEMENT_ACTIVE_THRESHOLD,
      PLAYER_VEL, PLAYER_WIDTH, WIDTH]
  have hmB : movingActively detState ⟨1000, false, false, 6, 0⟩ = false := by
    norm_num [movingActively, frameSamples, trimSamples, detState, initState,
      moveDx, newPlayerX, MOVEMENT_WINDOW_SEC, MOVEMENT_ACTIVE_THRESHOLD,
      PLAYER_VEL, PLAYER_WIDTH, WIDTH]
  have hA : (stepFrame detState ⟨1000, false, false, 4, 0⟩ zeroOracle).difficulty =
      207/200 := by
    show (stepCore detState 1000 false false zeroOracle
      (movingActively detState ⟨1000, false, false, 4, 0⟩)).difficulty = 207/200
    rw [hmA, stepCore_difficulty_no_hit detState 1000 false false zeroOracle true hno,
      if_pos hcool]
    norm_num [detState, initState, clamp, dtSec, DIFF_UP_PER_SEC,
      DIFF_UP_MOVING_BONUS, DIFF_MIN, DIFF_MAX]
  have hB : (stepFrame detState ⟨1000, false, false, 6, 0⟩ zeroOracle).difficulty =
      51/50 := by
    show (stepCore detState 1000 false false zeroOracle
      (movingActively detState ⟨1000, false, false, 6, 0⟩)).difficulty = 51/50
    rw [hmB, stepCore_difficulty_no_hit detState 1000 false false zeroOracle false hno,
      if_pos hcool]
    norm_num [detState, initState, clamp, dtSec, DIFF_UP_PER_SEC,
      DIFF_UP_MOVING_BONUS, DIFF_MIN, DIFF_MAX]
  rw [hA, hB]
  norm_num

/-- C8 as amended: the simulated frame is a deterministic function of the
per-frame delta, the input snapshot and the random stream, except for the
state components derived from wall-clock readings — the movement-sample
window, the difficulty scalar (whose moving-actively ramp bonus depends on
the wall-clock-trimmed window), the block difficulty accumulator (it
integrates the post-ramp difficulty) and the block start timestamp (logging
bookkeeping).  Two runs of a frame from the same state with identical delta,
keys and random stream but arbitrary wall-clock readings agree on every
other component. -/
theorem wallclock_independence_outside_movement_window (s : GameState)
    (dt : ℕ) (l r : Bool) (o : FrameOracle) (t1 tb1 t2 tb2 : ℚ) :
    stripWall (stepFrame s ⟨dt, l, r, t1, tb1⟩ o) =
    stripWall (stepFrame s ⟨dt, l, r, t2, tb2⟩ o) := by
  have h1 : stripWall (stepFrame s ⟨dt, l, r, t1, tb1⟩ o) =
      stripWall (stepCore s dt l r o (movingActively s ⟨dt, l, r, t1, tb1⟩)) := rfl
  have h2 : stripWall (stepFrame s ⟨dt, l, r, t2, tb2⟩ o) =
      stripWall (stepCore s dt l r o (movingActively s ⟨dt, l, r, t2, tb2⟩)) := rfl
  rw [h1, h2]
  exact stepCore_stripWall s dt l r o _ _

end SpaceDodge
